import Mathlib

/-!
Shallow embedding of the transactional lending ledger in `src/db/library.ts`
(class `LibraryDatabase`): the SQLite-backed tables `books` and `borrowings`,
the prepared statements `getBookForUpdate`, `decrementBook`, `incrementBook`,
`insertBorrowing`, `setReturned`, the `retry` helper with `DEFAULT_RETRY`,
and the transactional operations `borrowBook` and `returnBook`.

SQL semantics are modelled over lists of rows; `DATE('now')` is modelled by an
explicit `today : String` argument; JavaScript number division in
`fineAmountCents / 100` is modelled over `ℚ`.  A transaction is modelled by a
`TxState` carrying the committed store and a flag for an open uncommitted
transaction: `BEGIN IMMEDIATE` opens it, `COMMIT` installs the new store,
`ROLLBACK` discards the attempt's writes.
-/

namespace LibraryTs

/-- A row of the `books` table: `id, available_copies, total_copies`. -/
structure Book where
  id : Int
  available_copies : Int
  total_copies : Int
deriving DecidableEq, Repr

/-- A row of the `borrowings` table:
`id, user_id, book_id, borrowed_date, due_date, returned_date, fine_amount`. -/
structure Borrowing where
  id : Int
  user_id : Int
  book_id : Int
  borrowed_date : String
  due_date : String
  returned_date : Option String
  fine_amount : ℚ
deriving DecidableEq, Repr

/-- The database state: the two tables, plus the next rowid the
`INSERT ... RETURNING id` statement will assign. -/
structure DBState where
  books : List Book
  borrowings : List Borrowing
  nextId : Int
deriving DecidableEq, Repr

/-- Errors thrown by `library.ts` (each carries the exact `Error` message via
`errMessage`); `sqlite msg` stands for an error raised by the storage engine
itself, e.g. "database is locked". -/
inductive LibError where
  | invalidUserId
  | invalidBookId
  | invalidDueDate
  | bookNotFound
  | noAvailableCopies
  | failedToReserve
  | invalidBorrowingId
  | invalidFine
  | activeBorrowingNotFound
  | failedToSetReturn
  | sqlite (msg : String)
deriving DecidableEq, Repr

/-- The message of each thrown `Error`, verbatim from `library.ts`. -/
def errMessage : LibError → String
  | .invalidUserId => "Invalid userId"
  | .invalidBookId => "Invalid bookId"
  | .invalidDueDate => "Invalid dueDate format (expected YYYY-MM-DD)"
  | .bookNotFound => "Book not found"
  | .noAvailableCopies => "No available copies"
  | .failedToReserve => "Failed to reserve copy"
  | .invalidBorrowingId => "Invalid borrowingId"
  | .invalidFine => "Invalid fine amount"
  | .activeBorrowingNotFound => "Active borrowing not found"
  | .failedToSetReturn => "Failed to set return"
  | .sqlite msg => msg

/-- Statement `SELECT id, available_copies, total_copies FROM books WHERE id = ?`. -/
def getBookForUpdate (s : DBState) (bookId : Int) : Option Book :=
  s.books.find? (fun b => decide (b.id = bookId))

/-- Statement `UPDATE books SET available_copies = available_copies - 1
WHERE id = ? AND available_copies > 0`; returns the new state and the number
of changed rows. -/
def decrementBook (s : DBState) (bookId : Int) : DBState × Nat :=
  let hit : Book → Bool := fun b => decide (b.id = bookId ∧ 0 < b.available_copies)
  ({ s with books := s.books.map (fun b =>
      if hit b then { b with available_copies := b.available_copies - 1 } else b) },
   (s.books.filter hit).length)

/-- Statement `UPDATE books SET available_copies = MIN(total_copies, available_copies + 1)
WHERE id = ?`; returns the new state and the number of changed rows. -/
def incrementBook (s : DBState) (bookId : Int) : DBState × Nat :=
  let hit : Book → Bool := fun b => decide (b.id = bookId)
  ({ s with books := s.books.map (fun b =>
      if hit b then { b with available_copies := min b.total_copies (b.available_copies + 1) }
      else b) },
   (s.books.filter hit).length)

/-- Statement `INSERT INTO borrowings (user_id, book_id, borrowed_date, due_date, fine_amount)
VALUES (?, ?, DATE('now'), ?, 0) RETURNING id`. -/
def insertBorrowing (s : DBState) (userId bookId : Int) (today dueDate : String) :
    DBState × Int :=
  ({ s with
      borrowings := s.borrowings ++
        [{ id := s.nextId, user_id := userId, book_id := bookId,
           borrowed_date := today, due_date := dueDate,
           returned_date := none, fine_amount := 0 }],
      nextId := s.nextId + 1 },
   s.nextId)

/-- Statement `UPDATE borrowings SET returned_date = DATE('now'), fine_amount = ?
WHERE id = ? AND returned_date IS NULL`; returns the new state and the number
of changed rows. -/
def setReturned (s : DBState) (fine : ℚ) (borrowingId : Int) (today : String) :
    DBState × Nat :=
  let hit : Borrowing → Bool := fun br => decide (br.id = borrowingId ∧ br.returned_date = none)
  ({ s with borrowings := s.borrowings.map (fun br =>
      if hit br then { br with returned_date := some today, fine_amount := fine } else br) },
   (s.borrowings.filter hit).length)

/-- Statement `SELECT id, book_id FROM borrowings WHERE id = ? AND returned_date IS NULL`. -/
def getActiveBorrowing (s : DBState) (borrowingId : Int) : Option Borrowing :=
  s.borrowings.find? (fun br => decide (br.id = borrowingId ∧ br.returned_date = none))

/-- The character-level test of the regex `^[0-9]{4}-[0-9]{2}-[0-9]{2}`:
the first ten characters are four digits, a dash, two digits, a dash, two
digits; anything may follow (the regex has no end anchor). -/
def dueDateChars : List Char → Bool
  | c1 :: c2 :: c3 :: c4 :: d1 :: c5 :: c6 :: d2 :: c7 :: c8 :: _ =>
    c1.isDigit && c2.isDigit && c3.isDigit && c4.isDigit && decide (d1 = '-') &&
    c5.isDigit && c6.isDigit && decide (d2 = '-') && c7.isDigit && c8.isDigit
  | _ => false

/-- The due-date validation of `borrowBook`:
`/^[0-9]{4}-[0-9]{2}-[0-9]{2}/.test(dueDateISO)`. -/
def dueDateFormatOk (str : String) : Bool :=
  dueDateChars str.data

/-- The body of the `try` block of `borrowBook`: read the book, check
availability, guarded decrement, insert the ledger row.  Returns the updated
(uncommitted) state and the new borrowing id, or the thrown error. -/
def borrowAttempt (s : DBState) (userId bookId : Int) (dueDateISO today : String) :
    Except LibError (DBState × Int) :=
  match getBookForUpdate s bookId with
  | none => .error .bookNotFound
  | some book =>
    if book.available_copies ≤ 0 then .error .noAvailableCopies
    else
      let dec := decrementBook s bookId
      if dec.2 ≠ 1 then .error .failedToReserve
      else
        let ins := insertBorrowing dec.1 userId bookId today dueDateISO
        .ok (ins.1, ins.2)

/-- The body of the `try` block of `returnBook`: read the active borrowing,
guarded `setReturned` with `fineAmountCents / 100`, clamped increment of the
book's available copies (whose change count the code ignores). -/
def returnAttempt (s : DBState) (borrowingId fineAmountCents : Int) (today : String) :
    Except LibError DBState :=
  match getActiveBorrowing s borrowingId with
  | none => .error .activeBorrowingNotFound
  | some br =>
    let upd := setReturned s ((fineAmountCents : ℚ) / 100) borrowingId today
    if upd.2 ≠ 1 then .error .failedToSetReturn
    else .ok (incrementBook upd.1 br.book_id).1

instance {ε α : Type} [DecidableEq ε] [DecidableEq α] : DecidableEq (Except ε α) := fun a b =>
  match a, b with
  | .error x, .error y =>
    if h : x = y then .isTrue (by rw [h]) else .isFalse (fun hc => by cases hc; exact h rfl)
  | .error _, .ok _ => .isFalse (fun hc => by cases hc)
  | .ok _, .error _ => .isFalse (fun hc => by cases hc)
  | .ok x, .ok y =>
    if h : x = y then .isTrue (by rw [h]) else .isFalse (fun hc => by cases hc; exact h rfl)

/-- Lexicographic comparison of two character lists by code point. -/
def dateCharsBefore : List Char → List Char → Bool
  | [], [] => false
  | [], _ :: _ => true
  | _ :: _, [] => false
  | x :: xs, y :: ys => decide (x < y) || (decide (x = y) && dateCharsBefore xs ys)

/-- Lexicographic order on date strings; on `YYYY-MM-DD` strings this is
chronological order, so it expresses "earlier than" for due dates. -/
def dateBefore (a b : String) : Bool :=
  dateCharsBefore a.data b.data

/-- The committed store together with the open-transaction flag. -/
structure TxState where
  committed : DBState
  txOpen : Bool
deriving DecidableEq, Repr

/-- Running `BEGIN IMMEDIATE`: an uncommitted transaction is now open. -/
def beginTx (t : TxState) : TxState := { committed := t.committed, txOpen := true }

/-- Running `COMMIT`: the attempt's state becomes durable; no transaction is open. -/
def commitTx (s : DBState) : TxState := { committed := s, txOpen := false }

/-- Running `ROLLBACK`: the attempt's writes are discarded; no transaction is open. -/
def rollbackTx (t : TxState) : TxState := { committed := t.committed, txOpen := false }

/-- One call of `borrowBook(userId, bookId, dueDateISO)` on the transaction
state: input validation first (outside any transaction), then
`BEGIN IMMEDIATE`, the attempt body, and `COMMIT` on success or `ROLLBACK`
on a thrown error, which is re-thrown. -/
def borrowBookTx (t : TxState) (userId bookId : Int) (dueDateISO today : String) :
    TxState × Except LibError Int :=
  if userId ≤ 0 then (t, .error .invalidUserId)
  else if bookId ≤ 0 then (t, .error .invalidBookId)
  else if ¬ dueDateFormatOk dueDateISO then (t, .error .invalidDueDate)
  else
    let t1 := beginTx t
    match borrowAttempt t1.committed userId bookId dueDateISO today with
    | .ok (s2, rowId) => (commitTx s2, .ok rowId)
    | .error e => (rollbackTx t1, .error e)

/-- One call of `returnBook(borrowingId, fineAmountCents)` on the transaction
state: input validation, `BEGIN IMMEDIATE`, attempt body, `COMMIT`/`ROLLBACK`. -/
def returnBookTx (t : TxState) (borrowingId fineAmountCents : Int) (today : String) :
    TxState × Except LibError Unit :=
  if borrowingId ≤ 0 then (t, .error .invalidBorrowingId)
  else if fineAmountCents < 0 then (t, .error .invalidFine)
  else
    let t1 := beginTx t
    match returnAttempt t1.committed borrowingId fineAmountCents today with
    | .ok s2 => (commitTx s2, .ok ())
    | .error e => (rollbackTx t1, .error e)

/-- The operation `borrowBook` as a function on the durable store: run one call starting
with no open transaction and project the committed state. -/
def borrowBook (s : DBState) (userId bookId : Int) (dueDateISO today : String) :
    DBState × Except LibError Int :=
  let r := borrowBookTx { committed := s, txOpen := false } userId bookId dueDateISO today
  (r.1.committed, r.2)

/-- The operation `returnBook` as a function on the durable store. -/
def returnBook (s : DBState) (borrowingId fineAmountCents : Int) (today : String) :
    DBState × Except LibError Unit :=
  let r := returnBookTx { committed := s, txOpen := false } borrowingId fineAmountCents today
  (r.1.committed, r.2)

/-- Whether the first list occurs as a contiguous run at the start of the second. -/
def listStartsWith : List Char → List Char → Bool
  | [], _ => true
  | _ :: _, [] => false
  | a :: as, b :: bs => decide (a = b) && listStartsWith as bs

/-- Whether `needle` occurs as a contiguous run somewhere in the haystack. -/
def listHasRun (needle : List Char) : List Char → Bool
  | [] => listStartsWith needle []
  | c :: rest => listStartsWith needle (c :: rest) || listHasRun needle rest

/-- The transient-error classifier of `retry`:
`/database is locked|busy/i.test(err.message)`. -/
def busyMessage (msg : String) : Bool :=
  let lower := msg.data.map Char.toLower
  listHasRun ("database is locked").data lower || listHasRun ("busy").data lower

/-- Whether `retry` classifies a thrown error as transient (`isBusy`). -/
def isBusy (e : LibError) : Bool := busyMessage (errMessage e)

/-- The `RetryOptions` record of `library.ts`. -/
structure RetryOptions where
  maxAttempts : Nat
  initialDelayMs : Nat
  backoffFactor : Nat
deriving DecidableEq, Repr

/-- Constant `DEFAULT_RETRY = { maxAttempts: 3, initialDelayMs: 50, backoffFactor: 2 }`. -/
def DEFAULT_RETRY : RetryOptions :=
  { maxAttempts := 3, initialDelayMs := 50, backoffFactor := 2 }

/-- The `while (true)` loop of `retry`.  `fn n` is the outcome of the n-th call
of the retried closure (call numbering starts at 0, matching the code's
`attempt` counter before the increment).  Returns the surfaced outcome and the
list of delays slept, in order. -/
def retryGo {α : Type} (fn : Nat → Except LibError α) (maxAttempts backoff : Nat)
    (attempt delay : Nat) (slept : List Nat) : Except LibError α × List Nat :=
  match fn attempt with
  | .ok a => (.ok a, slept)
  | .error e =>
    if attempt + 1 ≥ maxAttempts ∨ isBusy e = false then (.error e, slept)
    else retryGo fn maxAttempts backoff (attempt + 1) (delay * backoff) (slept ++ [delay])
termination_by maxAttempts - attempt
decreasing_by
  rename_i h
  rw [not_or] at h
  omega

/-- Function `retry(fn, retryOpts)`: run the loop from attempt 0 with the initial delay. -/
def retry {α : Type} (fn : Nat → Except LibError α) (opts : RetryOptions) :
    Except LibError α × List Nat :=
  retryGo fn opts.maxAttempts opts.backoffFactor 0 opts.initialDelayMs []

/-- Matches `SELECT ... FROM borrowings WHERE book_id = ? AND returned_date IS NULL`. -/
def isActiveFor (bookId : Int) (br : Borrowing) : Bool :=
  decide (br.book_id = bookId ∧ br.returned_date = none)

/-- The number of `ACTIVE` ledger rows of one book among a list of rows. -/
def activeCountL (l : List Borrowing) (bookId : Int) : Int :=
  ((l.filter (isActiveFor bookId)).length : Int)

/-- The number of `ACTIVE` ledger rows of one book: rows of `borrowings` with
this `book_id` and `returned_date IS NULL`. -/
def activeCount (s : DBState) (bookId : Int) : Int :=
  activeCountL s.borrowings bookId

/-- The cross-table ledger invariant for the resource with id `bookId`:
every `books` row with that id satisfies
`activeCount = total_copies - available_copies`. -/
def bookInv (s : DBState) (bookId : Int) : Prop :=
  ∀ b ∈ s.books, b.id = bookId →
    activeCount s bookId = b.total_copies - b.available_copies

instance (s : DBState) (bookId : Int) : Decidable (bookInv s bookId) := by
  unfold bookInv
  infer_instance

/-- A concrete active borrowing row used in witnesses. -/
def sampleBorrowing : Borrowing :=
  { id := 5, user_id := 7, book_id := 1, borrowed_date := "2026-10-01",
    due_date := "2026-10-20", returned_date := none, fine_amount := 0 }

/-- A concrete store: one book with 2 of 3 copies available and one active
borrowing, used in witnesses. -/
def sampleState : DBState :=
  { books := [{ id := 1, available_copies := 2, total_copies := 3 }],
    borrowings := [sampleBorrowing],
    nextId := 6 }

/-- A store whose `books` table has two rows sharing one id (no primary-key
uniqueness), on which the guarded decrement changes two rows. -/
def dupBooksState : DBState :=
  { books := [{ id := 1, available_copies := 1, total_copies := 1 },
              { id := 1, available_copies := 1, total_copies := 1 }],
    borrowings := [],
    nextId := 1 }

/-! ### Helper lemmas -/

theorem countP_split_by {α : Type} (l : List α) (p q : α → Bool) :
    l.countP p =
      l.countP (fun x => p x && q x) + l.countP (fun x => p x && !q x) := by
  induction l with
  | nil => simp
  | cons a t ih =>
    simp only [List.countP_cons]
    cases hp : p a <;> cases hq : q a <;> simp [hp, hq] <;> omega

theorem filter_length_one_unique {α : Type} {l : List α} {q : α → Bool} {x : α}
    (hlen : (l.filter q).length = 1) (hx : x ∈ l) (hqx : q x = true) :
    ∀ y ∈ l, q y = true → y = x := by
  obtain ⟨z, hz⟩ := List.length_eq_one.mp hlen
  have hxz : x = z := by
    have hmem : x ∈ l.filter q := List.mem_filter.mpr ⟨hx, hqx⟩
    rw [hz] at hmem
    simpa using hmem
  intro y hy hqy
  have hmem : y ∈ l.filter q := List.mem_filter.mpr ⟨hy, hqy⟩
  rw [hz] at hmem
  simp only [List.mem_singleton] at hmem
  rw [hmem, ← hxz]

theorem dueDateChars_append (l ext : List Char) (h : dueDateChars l = true) :
    dueDateChars (l ++ ext) = true := by
  rcases l with _ | ⟨a1, _ | ⟨a2, _ | ⟨a3, _ | ⟨a4, _ | ⟨a5, _ | ⟨a6, _ | ⟨a7,
    _ | ⟨a8, _ | ⟨a9, _ | ⟨a10, rest⟩⟩⟩⟩⟩⟩⟩⟩⟩⟩ <;>
    simp_all [dueDateChars]

/-- Errors thrown inside `borrowAttempt` are never the due-date validation
error: that check happens before the transaction is opened. -/
theorem borrowAttempt_error_ne_invalidDueDate (s : DBState) (userId bookId : Int)
    (due today : String) (e : LibError)
    (h : borrowAttempt s userId bookId due today = .error e) :
    e ≠ LibError.invalidDueDate := by
  unfold borrowAttempt at h
  rcases hfind : getBookForUpdate s bookId with _ | b <;> rw [hfind] at h
  · simp only [Except.error.injEq] at h
    subst h
    decide
  · by_cases h1 : b.available_copies ≤ 0
    · simp only [if_pos h1, Except.error.injEq] at h
      subst h
      decide
    · by_cases h2 : (decrementBook s bookId).2 = 1
      · simp [h1, h2] at h
      · simp only [if_neg h1] at h
        simp [h2] at h
        subst h
        decide

/-! ### Claim theorems -/

/-- **C2**: for every resource, if `0 ≤ available_copies ≤ total_copies`
holds for every book row before the operation, it still holds after the
guarded decrement (which applies only when `available_copies > 0`) and after
the increment clamped to `MIN(total_copies, available_copies + 1)`. -/
theorem C2_counter_bounds_preserved (s : DBState) (bookId : Int)
    (h : ∀ b ∈ s.books, 0 ≤ b.available_copies ∧ b.available_copies ≤ b.total_copies) :
    (∀ b ∈ (decrementBook s bookId).1.books,
        0 ≤ b.available_copies ∧ b.available_copies ≤ b.total_copies) ∧
    (∀ b ∈ (incrementBook s bookId).1.books,
        0 ≤ b.available_copies ∧ b.available_copies ≤ b.total_copies) := by
  constructor
  · intro b' hb'
    simp only [decrementBook] at hb'
    rcases List.mem_map.mp hb' with ⟨b, hb, rfl⟩
    have hbounds := h b hb
    split
    · rename_i hcond
      rw [decide_eq_true_eq] at hcond
      show 0 ≤ b.available_copies - 1 ∧ b.available_copies - 1 ≤ b.total_copies
      omega
    · exact hbounds
  · intro b' hb'
    simp only [incrementBook] at hb'
    rcases List.mem_map.mp hb' with ⟨b, hb, rfl⟩
    have hbounds := h b hb
    split
    · show 0 ≤ min b.total_copies (b.available_copies + 1) ∧
        min b.total_copies (b.available_copies + 1) ≤ b.total_copies
      omega
    · exact hbounds

theorem C2_counter_bounds_preserved_witness :
    (∀ b ∈ (decrementBook sampleState 1).1.books,
        0 ≤ b.available_copies ∧ b.available_copies ≤ b.total_copies) ∧
    (∀ b ∈ (incrementBook sampleState 1).1.books,
        0 ≤ b.available_copies ∧ b.available_copies ≤ b.total_copies) :=
  C2_counter_bounds_preserved sampleState 1 (by decide)

/-- **C10**: the due-date validation accepts any string whose first ten
characters match the digit pattern `NNNN-NN-NN`, regardless of trailing
characters or calendar validity: appending anything to an accepted string
keeps it accepted, `"9999-99-99extra"` is accepted, and `borrowBook` with
that due date succeeds rather than raising the validation error. -/
theorem C10_due_date_validation_prefix_only (str ext : String)
    (h : dueDateFormatOk str = true) :
    dueDateFormatOk (str ++ ext) = true ∧
    dueDateFormatOk ("9999-99-99extra") = true ∧
    (borrowBook sampleState 7 1 ("9999-99-99extra") ("2026-10-11")).2 = Except.ok 6 := by
  refine ⟨?_, by decide, by decide⟩
  rw [dueDateFormatOk, String.data_append]
  rw [dueDateFormatOk] at h
  exact dueDateChars_append _ _ h

theorem C10_due_date_validation_prefix_only_witness :
    dueDateFormatOk ("9999-99-99" ++ "extra") = true ∧
    dueDateFormatOk ("9999-99-99extra") = true ∧
    (borrowBook sampleState 7 1 ("9999-99-99extra") ("2026-10-11")).2 = Except.ok 6 :=
  C10_due_date_validation_prefix_only ("9999-99-99") ("extra") (by decide)

/-- **C5** (counterexample): a `borrowBook` call whose well-formed due date
lies strictly before the current date is not rejected: it succeeds, a ledger
row is created and the availability counter decreases — contradicting the
claim that it fails with a validation error and changes nothing. -/
theorem C5_counterexample :
    dateBefore ("2000-01-01") ("2026-10-11") = true ∧
    (borrowBook sampleState 7 1 ("2000-01-01") ("2026-10-11")).2 = Except.ok 6 ∧
    (borrowBook sampleState 7 1 ("2000-01-01") ("2026-10-11")).1.borrowings.length =
      sampleState.borrowings.length + 1 ∧
    getBookForUpdate (borrowBook sampleState 7 1 ("2000-01-01") ("2026-10-11")).1 1 =
      some { id := 1, available_copies := 1, total_copies := 3 } := by
  refine ⟨by decide, by decide, by decide, by decide⟩

/-- **C5** (amended): `borrowBook` validates only the `YYYY-MM-DD` prefix
format of the due date and never compares it with the current date: a
malformed due date fails with the validation error and leaves the store
unchanged, while a well-formed due date is never rejected with the
validation error, even when it is earlier than the current date. -/
theorem C5_amended_format_only_validation (s : DBState) (userId bookId : Int)
    (due today : String) (hu : 0 < userId) (hbk : 0 < bookId) :
    (dueDateFormatOk due = false →
        borrowBook s userId bookId due today = (s, Except.error LibError.invalidDueDate)) ∧
    (dueDateFormatOk due = true →
        ∀ e, (borrowBook s userId bookId due today).2 = Except.error e →
          e ≠ LibError.invalidDueDate) := by
  have h1 : ¬ userId ≤ 0 := by omega
  have h2 : ¬ bookId ≤ 0 := by omega
  constructor
  · intro hfmt
    simp [borrowBook, borrowBookTx, h1, h2, hfmt]
  · intro hfmt e he
    rcases hba : borrowAttempt s userId bookId due today with e' | p
    · simp [borrowBook, borrowBookTx, h1, h2, hfmt, hba, beginTx, rollbackTx] at he
      subst he
      exact borrowAttempt_error_ne_invalidDueDate s userId bookId due today _ hba
    · simp [borrowBook, borrowBookTx, h1, h2, hfmt, hba, beginTx, commitTx] at he

theorem C5_amended_format_only_validation_witness :
    borrowBook sampleState 7 1 ("bad-date") ("2026-10-11") =
      (sampleState, Except.error LibError.invalidDueDate) :=
  (C5_amended_format_only_validation sampleState 7 1 ("bad-date") ("2026-10-11")
    (by decide) (by decide)).1 (by decide)

/-- **C9**: a successful `returnBook` persists `fineAmountCents / 100` — the
cents input expressed in whole currency units, possibly fractional — as the
`fine_amount` of the returned row, not the raw cents value. -/
theorem C9_fine_stored_in_currency_units (s s' : DBState)
    (borrowingId fineAmountCents : Int) (today : String)
    (hok : returnBook s borrowingId fineAmountCents today = (s', Except.ok ())) :
    ∃ br ∈ s'.borrowings, br.id = borrowingId ∧ br.returned_date = some today ∧
      br.fine_amount = (fineAmountCents : ℚ) / 100 := by
  by_cases h1 : borrowingId ≤ 0
  · simp [returnBook, returnBookTx, h1] at hok
  by_cases h2 : fineAmountCents < 0
  · simp [returnBook, returnBookTx, h1, h2] at hok
  rcases hra : returnAttempt s borrowingId fineAmountCents today with e | s2
  · simp [returnBook, returnBookTx, h1, h2, hra, beginTx, rollbackTx] at hok
  simp [returnBook, returnBookTx, h1, h2, hra, beginTx, commitTx] at hok
  subst hok
  unfold returnAttempt at hra
  rcases hga : getActiveBorrowing s borrowingId with _ | br <;> rw [hga] at hra
  · cases hra
  dsimp only at hra
  by_cases hupd : (setReturned s ((fineAmountCents : ℚ) / 100) borrowingId today).2 = 1
  · simp only [hupd, ne_eq, not_true_eq_false, if_false, Except.ok.injEq] at hra
    have hbrmem : br ∈ s.borrowings := List.mem_of_find?_eq_some hga
    have hbrp := List.find?_some hga
    rw [decide_eq_true_eq] at hbrp
    refine ⟨{ br with
                returned_date := some today
                fine_amount := (fineAmountCents : ℚ) / 100 }, ?_, ?_⟩
    · rw [← hra]
      simp only [incrementBook, setReturned]
      refine List.mem_map.mpr ⟨br, hbrmem, ?_⟩
      rw [if_pos (by rw [decide_eq_true_eq]; exact hbrp)]
    · exact ⟨hbrp.1, rfl, rfl⟩
  · simp [hupd] at hra

theorem C9_fine_stored_in_currency_units_witness :
    ∃ br ∈ (returnBook sampleState 5 150 ("2026-10-11")).1.borrowings,
      br.id = 5 ∧ br.returned_date = some ("2026-10-11") ∧
      br.fine_amount = (150 : ℚ) / 100 :=
  C9_fine_stored_in_currency_units sampleState
    (returnBook sampleState 5 150 ("2026-10-11")).1 5 150 ("2026-10-11") (by rfl)

/-- **C8**: starting from an idle connection, every `borrowBook`/`returnBook`
call ends with no open transaction (a successful call never leaves its
transaction uncommitted), and every failing call leaves the committed store
exactly as it was before the call (the rollback discards the attempt's
writes). -/
theorem C8_rollback_and_commit (t : TxState)
    (userId bookId borrowingId fineCents : Int) (due today : String)
    (hidle : t.txOpen = false) :
    (borrowBookTx t userId bookId due today).1.txOpen = false ∧
    (∀ e, (borrowBookTx t userId bookId due today).2 = Except.error e →
        (borrowBookTx t userId bookId due today).1.committed = t.committed) ∧
    (returnBookTx t borrowingId fineCents today).1.txOpen = false ∧
    (∀ e, (returnBookTx t borrowingId fineCents today).2 = Except.error e →
        (returnBookTx t borrowingId fineCents today).1.committed = t.committed) := by
  refine ⟨?_, ?_, ?_, ?_⟩
  · by_cases h1 : userId ≤ 0
    · simp [borrowBookTx, h1, hidle]
    · by_cases h2 : bookId ≤ 0
      · simp [borrowBookTx, h1, h2, hidle]
      · by_cases h3 : dueDateFormatOk due = true
        · rcases hba : borrowAttempt t.committed userId bookId due today with e' | p
          · simp [borrowBookTx, h1, h2, h3, hba, beginTx, rollbackTx]
          · simp [borrowBookTx, h1, h2, h3, hba, beginTx, commitTx]
        · simp [borrowBookTx, h1, h2, h3, hidle]
  · intro e he
    by_cases h1 : userId ≤ 0
    · simp [borrowBookTx, h1]
    · by_cases h2 : bookId ≤ 0
      · simp [borrowBookTx, h1, h2]
      · by_cases h3 : dueDateFormatOk due = true
        · rcases hba : borrowAttempt t.committed userId bookId due today with e' | p
          · simp [borrowBookTx, h1, h2, h3, hba, beginTx, rollbackTx]
          · simp [borrowBookTx, h1, h2, h3, hba, beginTx, commitTx] at he
        · simp [borrowBookTx, h1, h2, h3]
  · by_cases h1 : borrowingId ≤ 0
    · simp [returnBookTx, h1, hidle]
    · by_cases h2 : fineCents < 0
      · simp [returnBookTx, h1, h2, hidle]
      · rcases hra : returnAttempt t.committed borrowingId fineCents today with e' | s2
        · simp [returnBookTx, h1, h2, hra, beginTx, rollbackTx]
        · simp [returnBookTx, h1, h2, hra, beginTx, commitTx]
  · intro e he
    by_cases h1 : borrowingId ≤ 0
    · simp [returnBookTx, h1]
    · by_cases h2 : fineCents < 0
      · simp [returnBookTx, h1, h2]
      · rcases hra : returnAttempt t.committed borrowingId fineCents today with e' | s2
        · simp [returnBookTx, h1, h2, hra, beginTx, rollbackTx]
        · simp [returnBookTx, h1, h2, hra, beginTx, commitTx] at he

theorem retryGo_ok {α : Type} {fn : Nat → Except LibError α} {m b a d : Nat}
    {sl : List Nat} {x : α} (h : fn a = .ok x) :
    retryGo fn m b a d sl = (.ok x, sl) := by
  unfold retryGo
  rw [h]

theorem retryGo_stop {α : Type} {fn : Nat → Except LibError α} {m b a d : Nat}
    {sl : List Nat} {e : LibError} (h : fn a = .error e)
    (hstop : a + 1 ≥ m ∨ isBusy e = false) :
    retryGo fn m b a d sl = (.error e, sl) := by
  unfold retryGo
  rw [h]
  dsimp only
  rw [if_pos hstop]

theorem retryGo_step {α : Type} {fn : Nat → Except LibError α} {m b a d : Nat}
    {sl : List Nat} {e : LibError} (h : fn a = .error e)
    (hbusy : isBusy e = true) (hlt : a + 1 < m) :
    retryGo fn m b a d sl = retryGo fn m b (a + 1) (d * b) (sl ++ [d]) := by
  conv_lhs => rw [retryGo.eq_def]
  rw [h]
  dsimp only
  rw [if_neg ?_]
  intro hc
  rcases hc with hc | hc
  · omega
  · rw [hbusy] at hc
    cases hc

/-- **C6** (counterexample): the failure raised when the guarded decrement
does not change a row is surfaced by the retry helper on the very first
attempt, with no delay slept and no further attempt — it is not retried. -/
theorem C6_counterexample :
    retry (fun _ => (Except.error LibError.failedToReserve : Except LibError Int))
      DEFAULT_RETRY = (Except.error LibError.failedToReserve, []) := by
  rw [retry]
  exact retryGo_stop rfl (Or.inr (by decide))

/-- **C6** (amended): when the guarded decrement does not change exactly one
row, `borrowBook` fails with the reserve-conflict error
(message `Failed to reserve copy`); the retry helper does not classify this
error as transient — its message matches neither "database is locked" nor
"busy" — so the failure is surfaced immediately, not retried. -/
theorem C6_amended_reserve_conflict_not_retried (s : DBState) (userId bookId : Int)
    (due today : String) (b : Book) (fn : Nat → Except LibError Int)
    (hu : 0 < userId) (hbk : 0 < bookId) (hfmt : dueDateFormatOk due = true)
    (hfind : getBookForUpdate s bookId = some b) (havail : 0 < b.available_copies)
    (hchanges : (decrementBook s bookId).2 ≠ 1)
    (hfn : fn 0 = Except.error LibError.failedToReserve) :
    borrowBook s userId bookId due today = (s, Except.error LibError.failedToReserve) ∧
    isBusy LibError.failedToReserve = false ∧
    retry fn DEFAULT_RETRY = (Except.error LibError.failedToReserve, []) := by
  have h1 : ¬ userId ≤ 0 := by omega
  have h2 : ¬ bookId ≤ 0 := by omega
  have hav : ¬ b.available_copies ≤ 0 := by omega
  have hba : borrowAttempt s userId bookId due today = .error .failedToReserve := by
    unfold borrowAttempt
    rw [hfind]
    simp [hav, hchanges]
  refine ⟨?_, by decide, ?_⟩
  · simp [borrowBook, borrowBookTx, h1, h2, hfmt, hba, beginTx, rollbackTx]
  · rw [retry]
    exact retryGo_stop hfn (Or.inr (by decide))

theorem C6_amended_reserve_conflict_not_retried_witness :
    borrowBook dupBooksState 7 1 ("2026-10-20") ("2026-10-11") =
      (dupBooksState, Except.error LibError.failedToReserve) ∧
    isBusy LibError.failedToReserve = false ∧
    retry (fun _ => (Except.error LibError.failedToReserve : Except LibError Int))
      DEFAULT_RETRY = (Except.error LibError.failedToReserve, []) :=
  C6_amended_reserve_conflict_not_retried dupBooksState 7 1 ("2026-10-20") ("2026-10-11")
    { id := 1, available_copies := 1, total_copies := 1 }
    (fun _ => Except.error LibError.failedToReserve)
    (by decide) (by decide) (by decide) (by decide) (by decide) (by decide) rfl

/-- **C7**: the retry loop makes at most 3 attempts, sleeping 50ms and then
100ms between them; a persistent transient (locked/busy) error consumes all
three attempts and both delays, while an error not classified as transient —
every thrown NotFound, ResourceExhausted and ValidationError message is not
so classified — is surfaced immediately with no delay and no further
attempt. -/
theorem C7_retry_policy (fn g : Nat → Except LibError Int) (e e' : LibError)
    (hfn : ∀ n, fn n = Except.error e) (he : isBusy e = true)
    (hg : g 0 = Except.error e') (he' : isBusy e' = false) :
    retry fn DEFAULT_RETRY = (Except.error e, [50, 100]) ∧
    retry g DEFAULT_RETRY = (Except.error e', []) ∧
    (∀ f : Nat → Except LibError Int, ((retry f DEFAULT_RETRY).2).length + 1 ≤ 3) ∧
    isBusy LibError.bookNotFound = false ∧
    isBusy LibError.activeBorrowingNotFound = false ∧
    isBusy LibError.noAvailableCopies = false ∧
    isBusy LibError.invalidUserId = false ∧
    isBusy LibError.invalidBookId = false ∧
    isBusy LibError.invalidDueDate = false ∧
    isBusy LibError.invalidBorrowingId = false ∧
    isBusy LibError.invalidFine = false ∧
    isBusy LibError.failedToSetReturn = false ∧
    isBusy (LibError.sqlite ("database is locked")) = true ∧
    isBusy (LibError.sqlite ("SQLITE_BUSY")) = true := by
  refine ⟨?_, ?_, ?_, by decide, by decide, by decide, by decide, by decide,
    by decide, by decide, by decide, by decide, by decide, by decide⟩
  · rw [retry]
    rw [retryGo_step (hfn 0) he (by decide)]
    rw [retryGo_step (hfn 1) he (by decide)]
    rw [retryGo_stop (hfn 2) (Or.inl (by decide))]
    simp [DEFAULT_RETRY]
  · rw [retry]
    exact retryGo_stop hg (Or.inr he')
  · intro f
    rw [retry]
    rcases h0 : f 0 with e0 | x0
    · by_cases hb0 : isBusy e0 = true
      · rw [retryGo_step h0 hb0 (by decide)]
        rcases h1 : f 1 with e1 | x1
        · by_cases hb1 : isBusy e1 = true
          · rw [retryGo_step h1 hb1 (by decide)]
            rcases h2 : f 2 with e2 | x2
            · rw [retryGo_stop h2 (Or.inl (by decide))]
              simp
            · rw [retryGo_ok h2]
              simp
          · rw [retryGo_stop h1 (Or.inr (by simpa using hb1))]
            simp
        · rw [retryGo_ok h1]
          simp
      · rw [retryGo_stop h0 (Or.inr (by simpa using hb0))]
        simp
    · rw [retryGo_ok h0]
      simp

theorem C7_retry_policy_witness :
    retry (fun _ => (Except.error (LibError.sqlite ("database is locked")) :
        Except LibError Int)) DEFAULT_RETRY =
      (Except.error (LibError.sqlite ("database is locked")), [50, 100]) ∧
    retry (fun _ => (Except.error LibError.bookNotFound : Except LibError Int))
      DEFAULT_RETRY = (Except.error LibError.bookNotFound, []) := by
  have h := C7_retry_policy
    (fun _ => Except.error (LibError.sqlite ("database is locked")))
    (fun _ => Except.error LibError.bookNotFound)
    (LibError.sqlite ("database is locked")) LibError.bookNotFound
    (fun _ => rfl) (by decide) rfl (by decide)
  exact ⟨h.1, h.2.1⟩

theorem countP_eq_one_of_nodup {α : Type} [DecidableEq α] {l : List α} {b : α}
    (hnd : l.Nodup) (hb : b ∈ l) : l.countP (fun x => decide (x = b)) = 1 := by
  induction l with
  | nil => cases hb
  | cons a t ih =>
    rw [List.countP_cons]
    rcases List.mem_cons.mp hb with rfl | hbt
    · have hnb : b ∉ t := (List.nodup_cons.mp hnd).1
      have hz : t.countP (fun x => decide (x = b)) = 0 := by
        rw [List.countP_eq_zero]
        intro x hx
        simp only [decide_eq_true_eq]
        rintro rfl
        exact hnb hx
      simp [hz]
    · have hba : ¬ (a = b) := by
        rintro rfl
        exact (List.nodup_cons.mp hnd).1 hbt
      have ht := ih (List.nodup_cons.mp hnd).2 hbt
      simp [ht, hba]

/-- With unique book ids, the guarded decrement for a book that exists and
has available copies changes exactly one row. -/
theorem decrement_changes_one {s : DBState} {bookId : Int} {b : Book}
    (hnodup : (s.books.map Book.id).Nodup)
    (hfind : getBookForUpdate s bookId = some b) (hav : 0 < b.available_copies) :
    (decrementBook s bookId).2 = 1 := by
  have hbmem : b ∈ s.books := List.mem_of_find?_eq_some hfind
  have hbid : b.id = bookId := by
    have hp := List.find?_some hfind
    rwa [decide_eq_true_eq] at hp
  have hinj := List.inj_on_of_nodup_map hnodup
  simp only [decrementBook]
  rw [← List.countP_eq_length_filter]
  rw [List.countP_congr ?_]
  · exact countP_eq_one_of_nodup (List.Nodup.of_map _ hnodup) hbmem
  · intro x hx
    rw [decide_eq_true_eq, decide_eq_true_eq]
    constructor
    · intro hhit
      exact hinj hx hbmem (by rw [hhit.1, hbid])
    · rintro rfl
      exact ⟨hbid, hav⟩

/-- Lookup commutes with a row transformation that does not change the
searched predicate. -/
theorem find?_map_of_pred_preserved {α : Type} (p : α → Bool) (g : α → α)
    (l : List α) (hg : ∀ x, p (g x) = p x) :
    (l.map g).find? p = Option.map g (l.find? p) := by
  induction l with
  | nil => rfl
  | cons a t ih =>
    cases hpa : p a
    · rw [List.map_cons, List.find?_cons_of_neg _ (by simp [hg a, hpa]),
        List.find?_cons_of_neg _ (by simp [hpa])]
      exact ih
    · rw [List.map_cons, List.find?_cons_of_pos _ (by rw [hg a]; exact hpa),
        List.find?_cons_of_pos _ hpa]
      rfl

/-- **C3**: for an existing book with available copies (and unique book ids,
as the primary key guarantees), `borrowBook` succeeds, returns the id of a
newly appended active ledger row (`returned_date` null, `fine_amount` 0,
`borrowed_date = today`) and decrements `available_copies` by exactly one;
for an existing book with no available copies it fails with the exhaustion
error and leaves the store unchanged. -/
theorem C3_acquire_success_and_exhausted (s : DBState) (userId bookId : Int)
    (due today : String) (b : Book)
    (hu : 0 < userId) (hbk : 0 < bookId) (hfmt : dueDateFormatOk due = true)
    (hfind : getBookForUpdate s bookId = some b)
    (hnodup : (s.books.map Book.id).Nodup) :
    (0 < b.available_copies →
      (borrowBook s userId bookId due today).2 = Except.ok s.nextId ∧
      (borrowBook s userId bookId due today).1.borrowings =
        s.borrowings ++
          [{ id := s.nextId, user_id := userId, book_id := bookId,
             borrowed_date := today, due_date := due,
             returned_date := none, fine_amount := 0 }] ∧
      getBookForUpdate (borrowBook s userId bookId due today).1 bookId =
        some { b with available_copies := b.available_copies - 1 }) ∧
    (b.available_copies ≤ 0 →
      borrowBook s userId bookId due today =
        (s, Except.error LibError.noAvailableCopies)) := by
  have h1 : ¬ userId ≤ 0 := by omega
  have h2 : ¬ bookId ≤ 0 := by omega
  constructor
  · intro hav
    have hch := decrement_changes_one hnodup hfind hav
    have hba : borrowAttempt s userId bookId due today =
        .ok ((insertBorrowing (decrementBook s bookId).1 userId bookId today due).1,
          s.nextId) := by
      unfold borrowAttempt
      rw [hfind]
      have hnle : ¬ b.available_copies ≤ 0 := by omega
      simp only [if_neg hnle, hch]
      simp [insertBorrowing, decrementBook]
    refine ⟨?_, ?_, ?_⟩
    · simp [borrowBook, borrowBookTx, h1, h2, hfmt, hba, beginTx, commitTx]
    · simp only [borrowBook, borrowBookTx, if_neg h1, if_neg h2, hfmt,
        Bool.not_eq_true, beginTx, hba, commitTx]
      simp [insertBorrowing, decrementBook]
    · simp only [borrowBook, borrowBookTx, if_neg h1, if_neg h2, hfmt,
        Bool.not_eq_true, beginTx, hba, commitTx]
      show getBookForUpdate
          (insertBorrowing (decrementBook s bookId).1 userId bookId today due).1 bookId =
        some { b with available_copies := b.available_copies - 1 }
      have hbooks2 :
          (insertBorrowing (decrementBook s bookId).1 userId bookId today due).1.books =
            s.books.map (fun bb =>
              if decide (bb.id = bookId ∧ 0 < bb.available_copies) = true then
                { bb with available_copies := bb.available_copies - 1 } else bb) := by
        simp [insertBorrowing, decrementBook]
      unfold getBookForUpdate
      rw [hbooks2]
      have hg : ∀ x : Book,
          (fun bb : Book => decide (bb.id = bookId))
            (if decide (x.id = bookId ∧ 0 < x.available_copies) = true then
              { x with available_copies := x.available_copies - 1 } else x) =
          decide (x.id = bookId) := by
        intro x
        by_cases hx : decide (x.id = bookId ∧ 0 < x.available_copies) = true <;>
          simp [hx]
      rw [find?_map_of_pred_preserved _ _ s.books hg]
      have hfind' : s.books.find? (fun bb => decide (bb.id = bookId)) = some b := hfind
      rw [hfind']
      have hbid : b.id = bookId := by
        have hp := List.find?_some hfind
        rwa [decide_eq_true_eq] at hp
      simp [Option.map, hbid, hav]
  · intro hav
    have hba : borrowAttempt s userId bookId due today =
        .error .noAvailableCopies := by
      unfold borrowAttempt
      rw [hfind]
      dsimp only
      rw [if_pos hav]
    simp [borrowBook, borrowBookTx, h1, h2, hfmt, hba, beginTx, rollbackTx]

theorem C3_acquire_success_and_exhausted_witness :
    (borrowBook sampleState 7 1 ("2026-10-20") ("2026-10-11")).2 = Except.ok 6 ∧
    (borrowBook sampleState 7 1 ("2026-10-20") ("2026-10-11")).1.borrowings =
      sampleState.borrowings ++
        [{ id := 6, user_id := 7, book_id := 1, borrowed_date := "2026-10-11",
           due_date := "2026-10-20", returned_date := none, fine_amount := 0 }] ∧
    getBookForUpdate (borrowBook sampleState 7 1 ("2026-10-20") ("2026-10-11")).1 1 =
      some { id := 1, available_copies := 1, total_copies := 3 } :=
  (C3_acquire_success_and_exhausted sampleState 7 1 ("2026-10-20") ("2026-10-11")
    { id := 1, available_copies := 2, total_copies := 3 }
    (by decide) (by decide) (by decide) (by decide) (by decide)).1 (by decide)

/-- **C4**: `returnBook` is idempotent: after a successful return of a
borrowing, returning the same `borrowingId` again fails with the
`Active borrowing not found` error and leaves the store unchanged, so the
availability counter is incremented exactly once. -/
theorem C4_release_idempotent (s s' : DBState)
    (borrowingId fineCents fineCents2 : Int) (today today2 : String)
    (hf2 : 0 ≤ fineCents2)
    (h1 : returnBook s borrowingId fineCents today = (s', Except.ok ())) :
    returnBook s' borrowingId fineCents2 today2 =
      (s', Except.error LibError.activeBorrowingNotFound) := by
  by_cases hb : borrowingId ≤ 0
  · simp [returnBook, returnBookTx, hb] at h1
  by_cases hf : fineCents < 0
  · simp [returnBook, returnBookTx, hb, hf] at h1
  rcases hra : returnAttempt s borrowingId fineCents today with e | s2
  · simp [returnBook, returnBookTx, hb, hf, hra, beginTx, rollbackTx] at h1
  simp [returnBook, returnBookTx, hb, hf, hra, beginTx, commitTx] at h1
  subst h1
  unfold returnAttempt at hra
  rcases hga : getActiveBorrowing s borrowingId with _ | br <;> rw [hga] at hra
  · cases hra
  dsimp only at hra
  by_cases hupd : (setReturned s ((fineCents : ℚ) / 100) borrowingId today).2 = 1
  · simp only [hupd, ne_eq, not_true_eq_false, if_false, Except.ok.injEq] at hra
    have hborrs : s2.borrowings =
        (setReturned s ((fineCents : ℚ) / 100) borrowingId today).1.borrowings := by
      rw [← hra]
      simp [incrementBook]
    have hnone : getActiveBorrowing s2 borrowingId = none := by
      unfold getActiveBorrowing
      rw [hborrs]
      rw [List.find?_eq_none]
      intro x hx
      simp only [setReturned] at hx
      rcases List.mem_map.mp hx with ⟨y, hy, rfl⟩
      by_cases hhit : decide (y.id = borrowingId ∧ y.returned_date = none) = true
      · rw [if_pos hhit]
        simp
      · rw [if_neg hhit]
        exact hhit
    have hra2 : returnAttempt s2 borrowingId fineCents2 today2 =
        .error .activeBorrowingNotFound := by
      unfold returnAttempt
      rw [hnone]
    have hf2' : ¬ fineCents2 < 0 := by omega
    simp [returnBook, returnBookTx, hb, hf2', hra2, beginTx, rollbackTx]
  · simp [hupd] at hra

theorem C4_release_idempotent_witness :
    returnBook (returnBook sampleState 5 150 ("2026-10-11")).1 5 0 ("2026-10-12") =
      ((returnBook sampleState 5 150 ("2026-10-11")).1,
        Except.error LibError.activeBorrowingNotFound) :=
  C4_release_idempotent sampleState (returnBook sampleState 5 150 ("2026-10-11")).1
    5 150 0 ("2026-10-11") ("2026-10-12") (by decide) (by rfl)

theorem activeCountL_append (l m : List Borrowing) (R : Int) :
    activeCountL (l ++ m) R = activeCountL l R + activeCountL m R := by
  simp [activeCountL, List.filter_append]

/-- A `borrowBook` call either fails with the store unchanged (validation
failure or rollback) or commits exactly the successful attempt's state. -/
theorem borrowBook_cases (s : DBState) (userId bookId : Int) (due today : String) :
    (∃ e, borrowBook s userId bookId due today = (s, .error e)) ∨
    (∃ p, borrowAttempt s userId bookId due today = .ok p ∧
        borrowBook s userId bookId due today = (p.1, .ok p.2)) := by
  by_cases h1 : userId ≤ 0
  · exact Or.inl ⟨LibError.invalidUserId, by simp [borrowBook, borrowBookTx, h1]⟩
  by_cases h2 : bookId ≤ 0
  · exact Or.inl ⟨LibError.invalidBookId, by simp [borrowBook, borrowBookTx, h1, h2]⟩
  by_cases h3 : dueDateFormatOk due = true
  · rcases hba : borrowAttempt s userId bookId due today with e | p
    · exact Or.inl ⟨e,
        by simp [borrowBook, borrowBookTx, h1, h2, h3, hba, beginTx, rollbackTx]⟩
    · exact Or.inr ⟨p, rfl,
        by simp [borrowBook, borrowBookTx, h1, h2, h3, hba, beginTx, commitTx]⟩
  · exact Or.inl ⟨LibError.invalidDueDate, by simp [borrowBook, borrowBookTx, h1, h2, h3]⟩

/-- A `returnBook` call either fails with the store unchanged or commits
exactly the successful attempt's state. -/
theorem returnBook_cases (s : DBState) (borrowingId fineCents : Int) (today : String) :
    (∃ e, returnBook s borrowingId fineCents today = (s, .error e)) ∨
    (∃ s2, returnAttempt s borrowingId fineCents today = .ok s2 ∧
        returnBook s borrowingId fineCents today = (s2, .ok ())) := by
  by_cases h1 : borrowingId ≤ 0
  · exact Or.inl ⟨LibError.invalidBorrowingId, by simp [returnBook, returnBookTx, h1]⟩
  by_cases h2 : fineCents < 0
  · exact Or.inl ⟨LibError.invalidFine, by simp [returnBook, returnBookTx, h1, h2]⟩
  rcases hra : returnAttempt s borrowingId fineCents today with e | s2
  · exact Or.inl ⟨e,
      by simp [returnBook, returnBookTx, h1, h2, hra, beginTx, rollbackTx]⟩
  · exact Or.inr ⟨s2, rfl,
      by simp [returnBook, returnBookTx, h1, h2, hra, beginTx, commitTx]⟩

/-- Characterization of a successful `borrowAttempt`: the book was found with
available copies, the guarded decrement changed one row, and the result is
the inserted state with the fresh rowid. -/
theorem borrowAttempt_ok {s : DBState} {userId bookId : Int} {due today : String}
    {p : DBState × Int} (h : borrowAttempt s userId bookId due today = .ok p) :
    ∃ b, getBookForUpdate s bookId = some b ∧ 0 < b.available_copies ∧
      (decrementBook s bookId).2 = 1 ∧
      p.1 = (insertBorrowing (decrementBook s bookId).1 userId bookId today due).1 ∧
      p.2 = s.nextId := by
  unfold borrowAttempt at h
  rcases hfind : getBookForUpdate s bookId with _ | b <;> rw [hfind] at h
  · cases h
  dsimp only at h
  by_cases hav : b.available_copies ≤ 0
  · rw [if_pos hav] at h
    cases h
  rw [if_neg hav] at h
  by_cases hch : (decrementBook s bookId).2 = 1
  · simp only [hch, ne_eq, not_true_eq_false, if_false, Except.ok.injEq] at h
    refine ⟨b, rfl, by omega, hch, ?_, ?_⟩
    · rw [← h]
    · rw [← h]
      simp [insertBorrowing, decrementBook]
  · simp [hch] at h

/-- Characterization of a successful `returnAttempt`: an active borrowing was
found, the guarded update changed one row, and the result is the incremented
state. -/
theorem returnAttempt_ok {s : DBState} {borrowingId fineCents : Int} {today : String}
    {s2 : DBState} (h : returnAttempt s borrowingId fineCents today = .ok s2) :
    ∃ br, getActiveBorrowing s borrowingId = some br ∧
      (setReturned s ((fineCents : ℚ) / 100) borrowingId today).2 = 1 ∧
      s2 = (incrementBook
        (setReturned s ((fineCents : ℚ) / 100) borrowingId today).1 br.book_id).1 := by
  unfold returnAttempt at h
  rcases hga : getActiveBorrowing s borrowingId with _ | br <;> rw [hga] at h
  · cases h
  dsimp only at h
  by_cases hupd : (setReturned s ((fineCents : ℚ) / 100) borrowingId today).2 = 1
  · simp only [hupd, ne_eq, not_true_eq_false, if_false, Except.ok.injEq] at h
    exact ⟨br, rfl, hupd, h.symm⟩
  · simp [hupd] at h

/-- Marking one row returned does not change the active count of a book the
row does not belong to. -/
theorem activeCountL_setReturned_other (l : List Borrowing) (f : ℚ)
    (borrowingId : Int) (today : String) (R : Int) (br : Borrowing)
    (huniq : ∀ y ∈ l, decide (y.id = borrowingId ∧ y.returned_date = none) = true → y = br)
    (hbrB : br.book_id ≠ R) :
    activeCountL (l.map (fun y =>
      if decide (y.id = borrowingId ∧ y.returned_date = none) = true then
        { y with returned_date := some today, fine_amount := f } else y)) R =
    activeCountL l R := by
  simp only [activeCountL]
  rw [← List.countP_eq_length_filter, ← List.countP_eq_length_filter,
    List.countP_map]
  congr 1
  apply List.countP_congr
  intro y hy
  by_cases hq : y.id = borrowingId ∧ y.returned_date = none
  · have hybr := huniq y hy (by rw [decide_eq_true_eq]; exact hq)
    subst hybr
    simp [Function.comp, isActiveFor, hq, hbrB]
  · simp [Function.comp, isActiveFor, hq]

/-- Marking one active row of book `R` returned decreases the active count of
`R` by exactly one, provided the guarded update matched exactly one row. -/
theorem activeCountL_setReturned_self (l : List Borrowing) (f : ℚ)
    (borrowingId : Int) (today : String) (R : Int) (br : Borrowing)
    (hbrmem : br ∈ l)
    (hq : decide (br.id = borrowingId ∧ br.returned_date = none) = true)
    (hlen : (l.filter
      (fun y => decide (y.id = borrowingId ∧ y.returned_date = none))).length = 1)
    (hbrB : br.book_id = R) :
    activeCountL (l.map (fun y =>
      if decide (y.id = borrowingId ∧ y.returned_date = none) = true then
        { y with returned_date := some today, fine_amount := f } else y)) R + 1 =
    activeCountL l R := by
  have huniq := filter_length_one_unique hlen hbrmem hq
  have hbrp : isActiveFor R br = true := by
    rw [decide_eq_true_eq] at hq
    simp [isActiveFor, hbrB, hq.2]
  have hsplit := countP_split_by l (isActiveFor R)
    (fun y => decide (y.id = borrowingId ∧ y.returned_date = none))
  have hpart1 : l.countP (fun x => isActiveFor R x &&
      decide (x.id = borrowingId ∧ x.returned_date = none)) =
      l.countP (fun y => decide (y.id = borrowingId ∧ y.returned_date = none)) := by
    apply List.countP_congr
    intro y hy
    by_cases hqy : y.id = borrowingId ∧ y.returned_date = none
    · have hybr := huniq y hy (by rw [decide_eq_true_eq]; exact hqy)
      subst hybr
      simp [hqy, hbrp]
    · simp [hqy]
  have hpart2 : l.countP (fun y => isActiveFor R
      ((fun y => if decide (y.id = borrowingId ∧ y.returned_date = none) = true then
        { y with returned_date := some today, fine_amount := f } else y) y)) =
      l.countP (fun x => isActiveFor R x &&
        !(decide (x.id = borrowingId ∧ x.returned_date = none))) := by
    apply List.countP_congr
    intro y hy
    by_cases hqy : y.id = borrowingId ∧ y.returned_date = none
    · have hybr := huniq y hy (by rw [decide_eq_true_eq]; exact hqy)
      subst hybr
      simp [isActiveFor, hqy]
    · simp [isActiveFor, hqy]
  have hone : l.countP
      (fun y => decide (y.id = borrowingId ∧ y.returned_date = none)) = 1 := by
    rw [List.countP_eq_length_filter]
    exact hlen
  simp only [activeCountL]
  rw [← List.countP_eq_length_filter, ← List.countP_eq_length_filter,
    List.countP_map]
  have hcomp : l.countP ((isActiveFor R) ∘ (fun y =>
      if decide (y.id = borrowingId ∧ y.returned_date = none) = true then
        { y with returned_date := some today, fine_amount := f } else y)) =
      l.countP (fun x => isActiveFor R x &&
        !(decide (x.id = borrowingId ∧ x.returned_date = none))) := by
    rw [← hpart2]
    rfl
  rw [hcomp]
  rw [hpart1, hone] at hsplit
  omega

/-- The ledger invariant of any book id is preserved by a completed
`borrowBook` call, on stores with unique book ids. -/
theorem bookInv_borrow (s : DBState) (userId bookId : Int) (due today : String)
    (R : Int) (hnodup : (s.books.map Book.id).Nodup) (hinv : bookInv s R) :
    bookInv (borrowBook s userId bookId due today).1 R := by
  rcases borrowBook_cases s userId bookId due today with ⟨e, heq⟩ | ⟨p, hba, heq⟩
  · rw [heq]
    exact hinv
  · rw [heq]
    dsimp only
    rcases borrowAttempt_ok hba with ⟨b, hfind, hav, hch, hp1, hp2⟩
    rw [hp1]
    intro b' hb' hid
    have hbooks :
        (insertBorrowing (decrementBook s bookId).1 userId bookId today due).1.books =
          s.books.map (fun bb =>
            if decide (bb.id = bookId ∧ 0 < bb.available_copies) = true then
              { bb with available_copies := bb.available_copies - 1 } else bb) := by
      simp [insertBorrowing, decrementBook]
    have hrows :
        (insertBorrowing (decrementBook s bookId).1 userId bookId today due).1.borrowings =
          s.borrowings ++ [{ id := s.nextId, user_id := userId, book_id := bookId, borrowed_date := today, due_date := due, returned_date := none, fine_amount := 0 }] := by
      simp [insertBorrowing, decrementBook]
    rw [hbooks] at hb'
    rcases List.mem_map.mp hb' with ⟨b0, hb0, rfl⟩
    unfold activeCount
    rw [hrows, activeCountL_append]
    have hbmem := List.mem_of_find?_eq_some hfind
    have hbid : b.id = bookId := by
      have hp := List.find?_some hfind
      rwa [decide_eq_true_eq] at hp
    by_cases h0 : b0.id = bookId ∧ 0 < b0.available_copies
    · rw [if_pos (by rw [decide_eq_true_eq]; exact h0)] at hid ⊢
      have hid' : b0.id = R := hid
      have hR : R = bookId := by rw [← hid']; exact h0.1
      subst hR
      have hone : activeCountL [{ id := s.nextId, user_id := userId, book_id := R, borrowed_date := today, due_date := due, returned_date := none, fine_amount := 0 }] R = 1 := by
        simp [activeCountL, isActiveFor]
      rw [hone]
      have hbase := hinv b0 hb0 h0.1
      unfold activeCount at hbase
      show activeCountL s.borrowings R + 1 =
        b0.total_copies - (b0.available_copies - 1)
      omega
    · rw [if_neg (by rw [decide_eq_true_eq]; exact h0)] at hid ⊢
      by_cases hb0id : b0.id = bookId
      · have hb0b : b0 = b :=
          List.inj_on_of_nodup_map hnodup hb0 hbmem (by rw [hb0id, hbid])
        exact absurd ⟨hb0id, hb0b ▸ hav⟩ h0
      · have hRneq : bookId ≠ R := by
          intro hc
          rw [← hc] at hid
          exact hb0id hid
        have hzero : activeCountL [{ id := s.nextId, user_id := userId, book_id := bookId, borrowed_date := today, due_date := due, returned_date := none, fine_amount := 0 }] R = 0 := by
          simp [activeCountL, isActiveFor, hRneq]
        rw [hzero]
        have hbase := hinv b0 hb0 hid
        unfold activeCount at hbase
        omega

/-- The ledger invariant of any book id is preserved by a completed
`returnBook` call. -/
theorem bookInv_return (s : DBState) (borrowingId fineCents : Int) (today : String)
    (R : Int) (hinv : bookInv s R) :
    bookInv (returnBook s borrowingId fineCents today).1 R := by
  rcases returnBook_cases s borrowingId fineCents today with ⟨e, heq⟩ | ⟨s2, hra, heq⟩
  · rw [heq]
    exact hinv
  · rw [heq]
    dsimp only
    rcases returnAttempt_ok hra with ⟨br, hga, hupd, hs2⟩
    subst hs2
    have hbrmem : br ∈ s.borrowings := List.mem_of_find?_eq_some hga
    have hq := List.find?_some hga
    have hlen : (s.borrowings.filter
        (fun y => decide (y.id = borrowingId ∧ y.returned_date = none))).length = 1 := by
      have hlen0 : (setReturned s ((fineCents : ℚ) / 100) borrowingId today).2 =
          (s.borrowings.filter
            (fun y => decide (y.id = borrowingId ∧ y.returned_date = none))).length := by
        simp [setReturned]
      rw [hlen0] at hupd
      exact hupd
    have huniq := filter_length_one_unique hlen hbrmem hq
    have hbooks :
        ((incrementBook (setReturned s ((fineCents : ℚ) / 100) borrowingId today).1
            br.book_id).1).books = s.books.map (fun bb =>
          if decide (bb.id = br.book_id) = true then
            { bb with available_copies := min bb.total_copies (bb.available_copies + 1) }
          else bb) := by
      simp [incrementBook, setReturned]
    have hrows :
        ((incrementBook (setReturned s ((fineCents : ℚ) / 100) borrowingId today).1
            br.book_id).1).borrowings = s.borrowings.map (fun y =>
          if decide (y.id = borrowingId ∧ y.returned_date = none) = true then
            { y with returned_date := some today, fine_amount := (fineCents : ℚ) / 100 }
          else y) := by
      simp [incrementBook, setReturned]
    intro b' hb' hid
    rw [hbooks] at hb'
    rcases List.mem_map.mp hb' with ⟨b0, hb0, rfl⟩
    unfold activeCount
    rw [hrows]
    by_cases h0 : b0.id = br.book_id
    · rw [if_pos (by rw [decide_eq_true_eq]; exact h0)] at hid ⊢
      have hid' : b0.id = R := hid
      have hR : R = br.book_id := by rw [← hid']; exact h0
      subst hR
      have hcount := activeCountL_setReturned_self s.borrowings ((fineCents : ℚ) / 100)
        borrowingId today br.book_id br hbrmem hq hlen rfl
      have hmemf : br ∈ s.borrowings.filter (isActiveFor br.book_id) := by
        refine List.mem_filter.mpr ⟨hbrmem, ?_⟩
        have hq' := hq
        rw [decide_eq_true_eq] at hq'
        simp [isActiveFor, hq'.2]
      have hposn : 0 < (s.borrowings.filter (isActiveFor br.book_id)).length :=
        List.length_pos.mpr (List.ne_nil_of_mem hmemf)
      have hbase := hinv b0 hb0 h0
      unfold activeCount at hbase
      show activeCountL (s.borrowings.map (fun y =>
          if decide (y.id = borrowingId ∧ y.returned_date = none) = true then
            { y with returned_date := some today, fine_amount := (fineCents : ℚ) / 100 }
          else y)) br.book_id =
        b0.total_copies - min b0.total_copies (b0.available_copies + 1)
      simp only [activeCountL] at hcount hbase ⊢
      omega
    · rw [if_neg (by rw [decide_eq_true_eq]; exact h0)] at hid ⊢
      have hneq : br.book_id ≠ R := by
        intro hc
        rw [← hc] at hid
        exact h0 hid
      have hcount := activeCountL_setReturned_other s.borrowings ((fineCents : ℚ) / 100)
        borrowingId today R br huniq hneq
      rw [hcount]
      exact hinv b0 hb0 hid

/-- **C1**: for every resource id `R`, on a store with unique book ids, if
the cross-table ledger invariant — the number of active (`returned_date`
null) borrowings of `R` equals `total_copies - available_copies` — holds
before a completed `borrowBook` or `returnBook` call, it holds after it. -/
theorem C1_ledger_invariant (s : DBState) (userId bookId borrowingId fineCents : Int)
    (due today : String) (R : Int)
    (hnodup : (s.books.map Book.id).Nodup) (hinv : bookInv s R) :
    bookInv (borrowBook s userId bookId due today).1 R ∧
    bookInv (returnBook s borrowingId fineCents today).1 R :=
  ⟨bookInv_borrow s userId bookId due today R hnodup hinv,
   bookInv_return s borrowingId fineCents today R hinv⟩

theorem C1_ledger_invariant_witness :
    bookInv (borrowBook sampleState 7 1 ("2026-10-20") ("2026-10-11")).1 1 ∧
    bookInv (returnBook sampleState 5 150 ("2026-10-11")).1 1 :=
  C1_ledger_invariant sampleState 7 1 5 150 ("2026-10-20") ("2026-10-11") 1
    (by decide) (by decide)

theorem C8_rollback_and_commit_witness :
    (borrowBookTx { committed := sampleState, txOpen := false } 0 1
        ("2026-10-20") ("2026-10-11")).1.txOpen = false ∧
    (borrowBookTx { committed := sampleState, txOpen := false } 0 1
        ("2026-10-20") ("2026-10-11")).1.committed = sampleState := by
  have h := C8_rollback_and_commit { committed := sampleState, txOpen := false }
    0 1 0 0 ("2026-10-20") ("2026-10-11") (by decide)
  exact ⟨h.1, h.2.1 LibError.invalidUserId (by decide)⟩

end LibraryTs
